import Mathlib

/-!
Verification of the HICV availability scraper (`src/HICV/hicv_original_working.py`)
against its natural-language specification.

Each section embeds one part of the Python source as executable Lean
definitions and proves (or refutes) the corresponding specification claims.
Browser-driven side effects (clicks, scrolls, screenshots) are modelled by
explicit environment records that record the observable outcome of each
interaction; the control flow of the Python functions is translated
line by line.
-/

/-! ## Points parsing (`clean_points_from_text`, lines 684-695, and the
textually identical inner helper `_points_from_text`, lines 753-760)

The Python function runs two regular-expression searches:

  primary   : `([\d,]+)\s*points` with `re.I`
  secondary : `\b(\d{1,3}(?:,\d{3})+|\d{4,})\b`

Both are embedded below as executable leftmost-match scanners.  For the
primary pattern, a shorter-than-maximal `[\d,]+` run can never succeed
(the following character would be a digit or comma, never `p` and never
whitespace), so the scanner takes the maximal run, skips the maximal
whitespace run, and then requires the letters of `points`
case-insensitively.  For the secondary pattern the scanner follows the
regex engine's order: at each position with a word boundary before it,
the comma-grouped alternative is tried first (greedy in the number of
`,ddd` groups, backtracking group by group until the trailing word
boundary holds), then the 4-or-more-digits alternative. -/

def isWordChar (c : Char) : Bool := c.isAlphanum || c == '_'

def isPyWhitespace (c : Char) : Bool :=
  c == ' ' || c == '\t' || c == '\n' || c == '\r' || c == '\x0b' || c == '\x0c'

def isDigitOrComma (c : Char) : Bool := c.isDigit || c == ','

/-- Case-insensitive check that `s` starts with the (lowercase) pattern. -/
def startsWithCI : List Char → List Char → Bool
  | [], _ => true
  | _ :: _, [] => false
  | p :: ps, c :: cs => (c.toLower == p) && startsWithCI ps cs

def pointsWord : List Char := ['p', 'o', 'i', 'n', 't', 's']

/-- Attempt of the primary pattern `([\d,]+)\s*points` anchored at the head of
`s`; returns the captured digits-and-commas run on success. -/
def primaryAt (s : List Char) : Option (List Char) :=
  match s with
  | [] => none
  | c :: _ =>
    if isDigitOrComma c then
      let run := s.takeWhile isDigitOrComma
      let rest := s.dropWhile isDigitOrComma
      if startsWithCI pointsWord (rest.dropWhile isPyWhitespace) then some run
      else none
    else none

/-- Leftmost match of the primary pattern, as `re.search` computes it. -/
def findPrimary : List Char → Option (List Char)
  | [] => none
  | c :: cs =>
    match primaryAt (c :: cs) with
    | some r => some r
    | none => findPrimary cs

/-- The trailing `\b` of the secondary pattern: the previous character is a
digit, so the boundary holds exactly when the next character is absent or is
not a word character. -/
def boundaryOkAfter : List Char → Bool
  | [] => true
  | c :: _ => !(isWordChar c)

/-- Matches `(?:,\d{3})*` followed by a word boundary, greedily with
backtracking over the number of groups; returns the consumed characters.
When the text starts with a comma the zero-group fallback always satisfies
the boundary (a comma is not a word character). -/
def groupsStar : List Char → Option (List Char)
  | ',' :: d1 :: d2 :: d3 :: rest =>
    if d1.isDigit && d2.isDigit && d3.isDigit then
      match groupsStar rest with
      | some more => some (',' :: d1 :: d2 :: d3 :: more)
      | none => some []
    else some []
  | s => if boundaryOkAfter s then some [] else none

/-- First alternative `\d{1,3}(?:,\d{3})+` followed by `\b`, anchored at the
head of `s`.  A digit run longer than 3 makes the alternative fail: after at
most three digits the next character would still be a digit, never the
required comma. -/
def altOneAt (s : List Char) : Option (List Char) :=
  let run := s.takeWhile (·.isDigit)
  let rest := s.dropWhile (·.isDigit)
  if run.length == 0 || decide (3 < run.length) then none
  else
    match rest with
    | ',' :: d1 :: d2 :: d3 :: rest2 =>
      if d1.isDigit && d2.isDigit && d3.isDigit then
        match groupsStar rest2 with
        | some more => some (run ++ ',' :: d1 :: d2 :: d3 :: more)
        | none => none
      else none
    | _ => none

/-- Second alternative `\d{4,}` followed by `\b`, anchored at the head of `s`.
A shorter-than-maximal digit run leaves a digit as the next character, which
breaks the trailing boundary, so only the maximal run can match. -/
def altTwoAt (s : List Char) : Option (List Char) :=
  let run := s.takeWhile (·.isDigit)
  if decide (4 ≤ run.length) && boundaryOkAfter (s.dropWhile (·.isDigit)) then some run
  else none

/-- Leftmost match of the secondary pattern; `prev` is the character just
before the current position, used for the leading word boundary. -/
def findSecondaryAux : Option Char → List Char → Option (List Char)
  | _, [] => none
  | prev, c :: cs =>
    let boundaryBefore : Bool :=
      match prev with
      | none => true
      | some p => !(isWordChar p)
    let here : Option (List Char) :=
      if boundaryBefore then
        match altOneAt (c :: cs) with
        | some m => some m
        | none => altTwoAt (c :: cs)
      else none
    match here with
    | some m => some m
    | none => findSecondaryAux (some c) cs

def findSecondary (s : List Char) : Option (List Char) := findSecondaryAux none s

/-- Removes every comma, as `.replace(",", "")` does. -/
def stripCommas (cs : List Char) : String := String.mk (cs.filter (fun c => !(c == ',')))

/-- Embedding of `clean_points_from_text` (lines 684-695).  The inner helper
`_points_from_text` of `scrape_results` (lines 753-760) is character for
character the same code and is embodied by this same definition. -/
def clean_points_from_text (txt : String) : String :=
  if txt.isEmpty then ""
  else
    match findPrimary txt.data with
    | some run => stripCommas run
    | none =>
      match findSecondary txt.data with
      | some m => stripCommas m
      | none => ""

/-- Case-insensitive occurrence of the word `points` anywhere in the text. -/
def containsPointsCI : List Char → Bool
  | [] => false
  | c :: cs => startsWithCI pointsWord (c :: cs) || containsPointsCI cs

example : clean_points_from_text "Oceanview Suite — 1,234 points/night" = "1234" := by decide
example : clean_points_from_text "Studio from $199" = "" := by decide
example : clean_points_from_text "Studio from $1,999" = "1999" := by decide
example : clean_points_from_text "" = "" := by decide
example : clean_points_from_text "123 points" = "123" := by decide
example : clean_points_from_text "x 12,3456 y" = "3456" := by decide
example : clean_points_from_text "1,234,56 z" = "1234" := by decide
example : clean_points_from_text ",, points" = "" := by decide
example : clean_points_from_text "1,,2 points" = "12" := by decide
example : clean_points_from_text "a9 9points" = "9" := by decide
example : clean_points_from_text "12,34points" = "1234" := by decide
example : clean_points_from_text "99POINTS" = "99" := by decide
example : clean_points_from_text "abc 4567x 12,345" = "12345" := by decide
example : clean_points_from_text "123,456,78" = "123456" := by decide
example : clean_points_from_text "1,234x 5678" = "5678" := by decide
example : clean_points_from_text "_1234 " = "" := by decide
example : clean_points_from_text "x123,456" = "" := by decide
example : clean_points_from_text "  7 Points!" = "7" := by decide

/-! ## Calendar range selection (`_find_day_btn_in_block` lines 456-465,
`_first_enabled_after` lines 467-472, `_try_click_range` lines 474-503)

A month block is modelled by which day-number cells it renders and which of
them carry the `disabled` attribute.  The result of `_try_click_range`
records which start day was clicked and which end cell was clicked, in the
start block or in the other visible block; `none` corresponds to the Python
function returning `False`. -/

structure MonthBlock where
  present : Nat → Bool
  disabled : Nat → Bool

/-- Embedding of `_find_day_btn_in_block`: the day cell exists and its button
does not carry the `disabled` attribute. -/
def find_day_btn_in_block (mb : MonthBlock) (d : Nat) : Option Nat :=
  if mb.present d && !(mb.disabled d) then some d else none

/-- Embedding of `_first_enabled_after`: scans days `min_day+1 .. 31` (the
Python loop is `range(min_day + 1, 32)`). -/
def first_enabled_after (mb : MonthBlock) (minDay : Nat) : Option Nat :=
  (List.range' (minDay + 1) (31 - minDay)).find?
    (fun d => mb.present d && !(mb.disabled d))

/-- The `other.locator("button[class*=rdp-day]:not([disabled])").first`
fallback: the first enabled day cell of the block in document order,
modelled as the smallest enabled day number. -/
def first_enabled_in_block (mb : MonthBlock) : Option Nat :=
  (List.range' 1 31).find? (fun d => mb.present d && !(mb.disabled d))

inductive EndChoice where
  | inStart (d : Nat)
  | inOther (d : Nat)
deriving DecidableEq

/-- Target end day computed by `_try_click_range`:
`start_day + max(1, NIGHTS - 1)`. -/
def targetEndDay (startDay nights : Nat) : Nat := startDay + max 1 (nights - 1)

/-- Embedding of `_try_click_range`.  `otherMb` is the other visible month
block when one exists (`blocks.nth(1)` or `blocks.nth(0)`); the source
hard-codes the wrap threshold and subtrahend as the literal 31. -/
def try_click_range (startMb : MonthBlock) (otherMb : Option MonthBlock)
    (startDay nights : Nat) : Option (Nat × EndChoice) :=
  match find_day_btn_in_block startMb startDay with
  | none => none
  | some s =>
    let tEnd := targetEndDay startDay nights
    match (find_day_btn_in_block startMb tEnd).or (first_enabled_after startMb startDay) with
    | some e => some (s, EndChoice.inStart e)
    | none =>
      match otherMb with
      | none => none
      | some ob =>
        let wrapped := if tEnd > 31 then tEnd - 31 else tEnd
        match (find_day_btn_in_block ob wrapped).or (first_enabled_in_block ob) with
        | some e => some (s, EndChoice.inOther e)
        | none => none

/-- Modelled from the claim wording: the same end-day resolution, but with
the wrap computed against the actual number of days in the start month
(`end - days-in-month` when the end day overflows the month) instead of the
literal 31 used by the source.  Used only to compare the claim against the
source definition above. -/
def try_click_range_claim (daysInMonth : Nat) (startMb : MonthBlock)
    (otherMb : Option MonthBlock) (startDay nights : Nat) : Option (Nat × EndChoice) :=
  match find_day_btn_in_block startMb startDay with
  | none => none
  | some s =>
    let tEnd := targetEndDay startDay nights
    match (find_day_btn_in_block startMb tEnd).or (first_enabled_after startMb startDay) with
    | some e => some (s, EndChoice.inStart e)
    | none =>
      match otherMb with
      | none => none
      | some ob =>
        let wrapped := if tEnd > daysInMonth then tEnd - daysInMonth else tEnd
        match (find_day_btn_in_block ob wrapped).or (first_enabled_in_block ob) with
        | some e => some (s, EndChoice.inOther e)
        | none => none

/-- A 30-day start block in which day 28 is the last enabled day: days 1-30
are rendered and days 29 and 30 are disabled. -/
def septemberLikeBlock : MonthBlock :=
  { present := fun d => decide (1 ≤ d ∧ d ≤ 30)
    disabled := fun d => decide (29 ≤ d) }

/-- A 31-day start block in which day 28 is the last enabled day. -/
def decemberLikeBlock : MonthBlock :=
  { present := fun d => decide (1 ≤ d ∧ d ≤ 31)
    disabled := fun d => decide (29 ≤ d) }

/-- An adjacent month block with every day 1-31 rendered and enabled. -/
def openNextBlock : MonthBlock :=
  { present := fun d => decide (1 ≤ d ∧ d ≤ 31)
    disabled := fun _ => false }

example : try_click_range decemberLikeBlock (some openNextBlock) 28 7
    = some (28, EndChoice.inOther 3) := by decide
example : try_click_range septemberLikeBlock (some openNextBlock) 28 7
    = some (28, EndChoice.inOther 3) := by decide
example : try_click_range_claim 30 septemberLikeBlock (some openNextBlock) 28 7
    = some (28, EndChoice.inOther 4) := by decide

/-! ## Dropdown opening strategies (`open_resorts_dropdown`, lines 109-136)

The Python loop runs `for attempt in range(6)` over six fixed interaction
strategies; after each attempt it waits for the listbox panel to become
visible and returns on success.  The environment is abstracted by a
predicate giving, for each attempt index, whether that attempt ends with
the panel observed visible (an attempt whose action raises never reaches
the visibility wait and counts as unverified). -/

inductive Strategy where
  | nativeClick
  | forcedClick
  | doubleClick
  | keyboardEnter
  | keyboardSpace
  | syntheticEvent
deriving DecidableEq

/-- The fixed attempt order of `open_resorts_dropdown` (attempts 0-5). -/
def strategyOrder : List Strategy :=
  [Strategy.nativeClick, Strategy.forcedClick, Strategy.doubleClick,
   Strategy.keyboardEnter, Strategy.keyboardSpace, Strategy.syntheticEvent]

/-- Runs the remaining strategies starting at attempt index `i`, returning
the list of strategies actually attempted and the index of the winning
attempt, if any. -/
def runStrategies (verified : Nat → Bool) : List Strategy → Nat → List Strategy × Option Nat
  | [], _ => ([], none)
  | s :: rest, i =>
    if verified i then ([s], some i)
    else
      let (tried, r) := runStrategies verified rest (i + 1)
      (s :: tried, r)

/-- Embedding of the strategy loop of `open_resorts_dropdown`; a `none`
outcome corresponds to the final `write_debug` plus `TimeoutError`. -/
def open_resorts_dropdown (verified : Nat → Bool) : List Strategy × Option Nat :=
  runStrategies verified strategyOrder 0

example : open_resorts_dropdown (fun i => i == 2)
    = ([Strategy.nativeClick, Strategy.forcedClick, Strategy.doubleClick], some 2) := by decide
example : open_resorts_dropdown (fun _ => false) = (strategyOrder, none) := by decide

/-! ## Results deduplication and the zero-row tail of `scrape_results`
(lines 864-883)

A candidate row carries exactly the four emitted fields, so equality of
records is equality of the four fields.  The dedup pass keeps the first
occurrence of each key, exactly as the `seen` set plus `out` list do. -/

structure AvailabilityRecord where
  dateRange : String
  resort : String
  room : String
  points : String
deriving DecidableEq

/-- The `seen`-set loop of lines 865-872: skip a row whose key was already
seen, otherwise emit it and remember the key. -/
def dedupAux (seen : List AvailabilityRecord) :
    List AvailabilityRecord → List AvailabilityRecord
  | [] => []
  | r :: rs => if r ∈ seen then dedupAux seen rs else r :: dedupAux (r :: seen) rs

def dedupRows (rows : List AvailabilityRecord) : List AvailabilityRecord :=
  dedupAux [] rows

inductive ScrapeErr where
  | screenshotFailed
deriving DecidableEq

/-- Embedding of the tail of `scrape_results` (lines 864-883): dedup the
candidate rows; when the result is empty, attempt the debug markup dump
(wrapped in `try/except pass`, so its failure is swallowed) and then call
`page.screenshot` with no guard, so a screenshot failure propagates out of
the function.  The second component of a successful result lists the debug
artifacts written. -/
def scrape_results_finish (rows : List AvailabilityRecord)
    (htmlWriteRaises screenshotRaises : Bool) :
    Except ScrapeErr (List AvailabilityRecord × List String) :=
  let out := dedupRows rows
  if out.length == 0 then
    let arts := if htmlWriteRaises then [] else ["no_results_debug.html"]
    if screenshotRaises then Except.error ScrapeErr.screenshotFailed
    else Except.ok (out, arts ++ ["no_results_debug.png"])
  else Except.ok (out, [])

/-! ## Unit-size selection (`set_unit_sizes` and its inner `ensure_state`,
lines 312-378)

The panel exposes the four fixed options `Studio`, `1 Bedroom`,
`2 Bedroom`, `3+ Bedroom`.  For each option, `ensure_state` returns at once
when the row label is absent or the observed `aria-selected` state already
matches the desired one; otherwise it clicks (a toggle that may or may not
be observed within the poll window) and, when the click was not observed to
take effect, injects the desired state directly through the checked
property descriptor and patches `aria-selected`.  Each option only ever
touches its own list item, so the four reconciliations are independent.

Two models of the click chain of lines 333-339 are given.  The first,
`ensure_state` below, covers runs in which no click attempt raises: a click
either toggles the option or is ineffective.  The second,
`ensure_state_exc` further down, also carries the exception path of the
source: the plain and forced label clicks are each wrapped in `try/except`,
but the final `li.click(force=True)` on line 339 sits inside the innermost
`except` block with no guard of its own, so when all three attempts raise,
that exception propagates out of `set_unit_sizes` and neither the direct
state injection nor the final confirmation loop runs. -/

structure UnitPanelShape where
  presentST : Bool
  present1BD : Bool
  present2BD : Bool
  present3BD : Bool
deriving DecidableEq

structure UnitClickEnv where
  togglesST : Bool
  toggles1BD : Bool
  toggles2BD : Bool
  toggles3BD : Bool
deriving DecidableEq

structure UnitSelection where
  selST : Bool
  sel1BD : Bool
  sel2BD : Bool
  sel3BD : Bool
deriving DecidableEq

/-- One `ensure_state` call on a single option: absent row untouched,
matching state skipped, an effective click toggles, and otherwise the
direct state injection writes the desired value. -/
def ensure_state (present clickToggles cur should : Bool) : Bool :=
  if !present then cur
  else if cur == should then cur
  else if clickToggles then !cur
  else should

/-- The desired-state test of the reconciliation loop:
`name in desired_labels`. -/
def desiredFor (desired : List String) (name : String) : Bool :=
  desired.contains name

/-- The `for name, input_id in options: ensure_state(...)` loop of
`set_unit_sizes`; the four options are reconciled independently. -/
def set_unit_sizes_reconcile (shape : UnitPanelShape) (env : UnitClickEnv)
    (desired : List String) (s : UnitSelection) : UnitSelection :=
  { selST := ensure_state shape.presentST env.togglesST s.selST (desiredFor desired "Studio")
    sel1BD := ensure_state shape.present1BD env.toggles1BD s.sel1BD (desiredFor desired "1 Bedroom")
    sel2BD := ensure_state shape.present2BD env.toggles2BD s.sel2BD (desiredFor desired "2 Bedroom")
    sel3BD := ensure_state shape.present3BD env.toggles3BD s.sel3BD (desiredFor desired "3+ Bedroom") }

/-- The final confirmation loop of `set_unit_sizes` (lines 369-375): the
names whose list item reports `aria-selected` equal to `true`, in option
order. -/
def final_selected (s : UnitSelection) : List String :=
  (if s.selST then ["Studio"] else []) ++
  (if s.sel1BD then ["1 Bedroom"] else []) ++
  (if s.sel2BD then ["2 Bedroom"] else []) ++
  (if s.sel3BD then ["3+ Bedroom"] else [])

/-- Embedding of `set_unit_sizes`: reconcile, then read the confirmed set. -/
def set_unit_sizes (shape : UnitPanelShape) (env : UnitClickEnv)
    (desired : List String) (s : UnitSelection) : List String :=
  final_selected (set_unit_sizes_reconcile shape env desired s)

example :
    set_unit_sizes ⟨true, true, true, true⟩ ⟨false, true, false, true⟩
      ["Studio", "1 Bedroom"] ⟨false, false, true, false⟩
    = ["Studio", "1 Bedroom"] := by decide

/-- The fixed option table of `set_unit_sizes` (lines 317-322): label and
checkbox input id, in processing order. -/
def unitOptions : List (String × String) :=
  [("Studio", "option-ST-id"), ("1 Bedroom", "option-1BD-id"),
   ("2 Bedroom", "option-2BD-id"), ("3+ Bedroom", "option-3BDPlus-id")]

inductive UnitErr where
  | clickException (inputId : String)
deriving DecidableEq

/-- Exception-aware interaction environment for the unit-size panel: which
option rows are rendered, which of the three click attempts raise for each
input id, and whether an effective click is observed as the desired state
within the poll window. -/
structure UnitEnvExc where
  present : String → Bool
  labelClickRaises : String → Bool
  labelForceRaises : String → Bool
  liForceRaises : String → Bool
  clickToggles : String → Bool

/-- Exception-aware `ensure_state` on one option, over the DOM state of the
checkbox input ids: absent row untouched, matching state skipped; otherwise
the click chain runs, and when the plain label click, the forced label
click and the final forced list-item click (line 339, unguarded) all raise,
the exception propagates; a surviving click either toggles the option or is
followed by the direct state injection of the desired value. -/
def ensure_state_exc (env : UnitEnvExc) (st : String → Bool) (inputId : String)
    (should : Bool) : Except UnitErr (String → Bool) :=
  if env.present inputId = false then Except.ok st
  else if st inputId = should then Except.ok st
  else if env.labelClickRaises inputId && env.labelForceRaises inputId &&
      env.liForceRaises inputId then
    Except.error (UnitErr.clickException inputId)
  else if env.clickToggles inputId then
    Except.ok (fun x => if x = inputId then !(st x) else st x)
  else
    Except.ok (fun x => if x = inputId then should else st x)

/-- The `for name, input_id in options` loop of `set_unit_sizes` with the
exception path: an option whose click chain raises aborts the rest of the
reconciliation. -/
def reconcileOptions (env : UnitEnvExc) (desired : List String) :
    List (String × String) → (String → Bool) → Except UnitErr (String → Bool)
  | [], st => Except.ok st
  | (name, inputId) :: rest, st =>
    match ensure_state_exc env st inputId (desiredFor desired name) with
    | Except.error e => Except.error e
    | Except.ok st2 => reconcileOptions env desired rest st2

/-- Exception-aware embedding of `set_unit_sizes`: reconcile all four
options, then read the confirmed names from `aria-selected` in option
order; a propagated click exception means the confirmation loop never
runs and no confirmed set is produced. -/
def set_unit_sizes_exc (env : UnitEnvExc) (desired : List String)
    (st : String → Bool) : Except UnitErr (List String) :=
  match reconcileOptions env desired unitOptions st with
  | Except.error e => Except.error e
  | Except.ok st2 => Except.ok ((unitOptions.filter (fun p => st2 p.2)).map Prod.fst)

/-- Initial DOM state with only `2 Bedroom` selected. -/
def unitStateOnly2BD : String → Bool := fun x => x == "option-2BD-id"

/-- Environment for the C5 counterexample: every row rendered, all three
click attempts raise for every option. -/
def unitEnvClickFail : UnitEnvExc :=
  ⟨fun _ => true, fun _ => true, fun _ => true, fun _ => true, fun _ => false⟩

/-- Environment for the C5 witness: every row rendered, no click attempt
raises, clicks observed as effective. -/
def unitEnvSafe : UnitEnvExc :=
  ⟨fun _ => true, fun _ => false, fun _ => false, fun _ => false, fun _ => true⟩

/-! ## Florida location-group selection (`select_all_florida_locations`,
lines 161-283, and `_collect_florida_ids_from_dom`, lines 139-159)

The environment records, per scroll iteration, whether the Florida group
header is rendered, the option ids a DOM snapshot collects under the header
and whether a following group header is visible, plus the per-option
interaction outcomes: whether the option is already selected, whether each
of the three click attempts raises, and whether an effective click is
observed as selected within the poll window.

Control-flow facts translated from the source:
the plain label click and the forced label click are each wrapped in
`try/except`, but the final forced click on the list item (line 219) sits
inside the innermost `except` block with no guard of its own, so its
exception propagates out of the function; the direct state injection
(lines 229-246) then never runs for that option.  When no click raises,
every processed option ends selected: either a click is observed as
selected, or the injection writes `aria-selected` directly. -/

structure LocEnv where
  floridaVisibleAt : Nat → Bool
  snapIds : Nat → List Nat
  snapHasNext : Nat → Bool
  initiallySelected : Nat → Bool
  labelClickRaises : Nat → Bool
  labelForceRaises : Nat → Bool
  liForceRaises : Nat → Bool
  clickObservedSelected : Nat → Bool

/-- The scroll loop of lines 166-174: up to 60 scroll steps looking for the
`#list-item-Florida-id` header. -/
def foundFlorida (env : LocEnv) : Bool :=
  (List.range 60).any env.floridaVisibleAt

/-- Adds the ids of one snapshot to the accumulated set (`all_ids.add`),
keeping first-occurrence order and no duplicates. -/
def addIds (acc : List Nat) : List Nat → List Nat
  | [] => acc
  | n :: ns => if n ∈ acc then addIds acc ns else addIds (acc ++ [n]) ns

/-- The render loop of lines 180-193: up to 80 snapshots, accumulating ids,
breaking as soon as a following group header is seen and at least one id
was collected. -/
def collectIdsAux (env : LocEnv) : Nat → Nat → List Nat → List Nat
  | 0, _, acc => acc
  | fuel + 1, i, acc =>
    let acc2 := addIds acc (env.snapIds i)
    if env.snapHasNext i && decide (0 < acc2.length) then acc2
    else collectIdsAux env fuel (i + 1) acc2

def collectIds (env : LocEnv) : List Nat := collectIdsAux env 80 0 []

inductive LocErr where
  | noFlorida
  | noOptions
  | clickException (id : Nat)
deriving DecidableEq

/-- The debug stem written by `write_debug` just before each raise; the
unguarded click exception propagates without any debug snapshot. -/
def locErrDebugStem : LocErr → Option String
  | LocErr.noFlorida => some "location_panel_no_florida"
  | LocErr.noOptions => some "location_panel_after"
  | LocErr.clickException _ => none

/-- The per-option loop of lines 200-250.  An already selected option is
skipped; otherwise the click chain runs until one attempt does not raise,
and if all three raise, the exception of the final unguarded
`li.click(force=True)` propagates. -/
def processOptions (env : LocEnv) : List Nat → Except LocErr Unit
  | [] => Except.ok ()
  | fid :: rest =>
    if env.initiallySelected fid then processOptions env rest
    else if env.labelClickRaises fid && env.labelForceRaises fid && env.liForceRaises fid then
      Except.error (LocErr.clickException fid)
    else processOptions env rest

/-- Embedding of `select_all_florida_locations` from the point where the
panel is open; a successful run returns the number of Florida options
processed (all of them end selected, so this is also the confirmed count of
lines 251-255). -/
def select_all_florida_locations (env : LocEnv) : Except LocErr Nat :=
  if !(foundFlorida env) then Except.error LocErr.noFlorida
  else
    let ids := collectIds env
    if ids.isEmpty then Except.error LocErr.noOptions
    else
      match processOptions env ids with
      | Except.error e => Except.error e
      | Except.ok _ => Except.ok ids.length

/-! ## Guest counters (`set_counter`, lines 285-310)

The environment gives the parsed initial counter reading, the value each
in-loop re-read observes (`none` when the guarded re-read raises, leaving
`cur` unchanged), and whether the unguarded `plus_btn.click()` raises at a
given iteration.  The guarded `minus_btn.click()` swallows its own
exceptions and so never changes control flow. -/

structure CounterEnv where
  initial : Nat
  readAt : Nat → Option Nat
  plusRaisesAt : Nat → Bool

inductive CounterOutcome where
  | finished (finalCur tries : Nat)
  | raised (tries : Nat)
deriving DecidableEq

/-- Iterations already performed are counted by `i`; the remaining loop
budget is `fuel = 30 - i`.  The loop body clicks plus when below target
(propagating a raise), clicks minus otherwise (exceptions swallowed), then
re-reads the counter (exceptions swallowed, keeping `cur`). -/
def set_counter_aux (env : CounterEnv) (target : Nat) :
    Nat → Nat → Nat → CounterOutcome
  | 0, i, cur => CounterOutcome.finished cur i
  | fuel + 1, i, cur =>
    if cur == target then CounterOutcome.finished cur i
    else if decide (cur < target) && env.plusRaisesAt i then CounterOutcome.raised i
    else
      let cur2 := (env.readAt i).getD cur
      set_counter_aux env target fuel (i + 1) cur2

/-- Embedding of the `while cur != target and tries < 30` loop of
`set_counter`. -/
def set_counter (env : CounterEnv) (target : Nat) : CounterOutcome :=
  set_counter_aux env target 30 0 env.initial

/-- Number of loop iterations performed before the outcome. -/
def counterTries : CounterOutcome → Nat
  | CounterOutcome.finished _ t => t
  | CounterOutcome.raised t => t

def counterReturned : CounterOutcome → Bool
  | CounterOutcome.finished _ _ => true
  | CounterOutcome.raised _ => false

example :
    set_counter ⟨0, fun _ => some 0, fun _ => false⟩ 5
    = CounterOutcome.finished 0 30 := by decide
example :
    set_counter ⟨0, fun i => some (i + 1), fun _ => false⟩ 5
    = CounterOutcome.finished 5 5 := by decide

/-! ## Claim theorems -/

/-- Claim C1, counterexample to the wording `end - days-in-month`: for a
30-day start month whose last enabled day is 28, a 7-night stay overflows to
target end day 34; the source wraps with the literal 31 and clicks day 3 of
the other block, while wrapping by the number of days in the month (30)
would pick day 4. -/
theorem c1_end_wrap_counterexample :
    try_click_range septemberLikeBlock (some openNextBlock) 28 7
      = some (28, EndChoice.inOther 3) ∧
    try_click_range_claim 30 septemberLikeBlock (some openNextBlock) 28 7
      = some (28, EndChoice.inOther 4) ∧
    try_click_range septemberLikeBlock (some openNextBlock) 28 7
      ≠ try_click_range_claim 30 septemberLikeBlock (some openNextBlock) 28 7 :=
  ⟨by decide, by decide, by decide⟩

/-- Claim C1 (amended): the target end day is `check-in day + max(1, nights-1)`;
the end cell is preferred in the start block, then the first enabled day
strictly after the start day in that block, then the other visible block
with the wrapped day number `end - 31` whenever the end day exceeds 31 (the
source hard-codes 31, which equals days-in-month only for 31-day months).
In particular, check-in day 28 with a 7-night stay computes target end day
34, which resolves to day 3 in the adjacent block. -/
theorem c1_end_wrap_amended :
    (∀ (startMb : MonthBlock) (otherMb : Option MonthBlock) (startDay nights : Nat),
       try_click_range startMb otherMb startDay nights
         = try_click_range_claim 31 startMb otherMb startDay nights) ∧
    targetEndDay 28 7 = 34 ∧
    try_click_range decemberLikeBlock (some openNextBlock) 28 7
      = some (28, EndChoice.inOther 3) :=
  ⟨fun _ _ _ _ => rfl, by decide, by decide⟩

/-- Claim C2: the dropdown opener tries exactly the six strategies
native click, forced click, double-click, keyboard Enter, keyboard Space,
synthetic event dispatch, in that fixed order; the first attempt whose
verification succeeds wins, every earlier strategy was attempted exactly
once, and no strategy at all is attempted after the success. -/
theorem c2_strategy_priority (verified : Nat → Bool) (i : Nat)
    (hlt : i < 6) (hsucc : verified i = true)
    (hfirst : ∀ j, j < i → verified j = false) :
    strategyOrder
      = [Strategy.nativeClick, Strategy.forcedClick, Strategy.doubleClick,
         Strategy.keyboardEnter, Strategy.keyboardSpace, Strategy.syntheticEvent] ∧
    (open_resorts_dropdown verified).2 = some i ∧
    (open_resorts_dropdown verified).1 = strategyOrder.take (i + 1) ∧
    (open_resorts_dropdown verified).1.Nodup := by
  have h0 : 0 < i → verified 0 = false := fun h => hfirst 0 h
  have h1 : 1 < i → verified 1 = false := fun h => hfirst 1 h
  have h2 : 2 < i → verified 2 = false := fun h => hfirst 2 h
  have h3 : 3 < i → verified 3 = false := fun h => hfirst 3 h
  have h4 : 4 < i → verified 4 = false := fun h => hfirst 4 h
  interval_cases i <;>
    simp_all [open_resorts_dropdown, runStrategies, strategyOrder]

/-- Closed witness for claim C2: with a verification predicate satisfied
first at attempt index 2, the opener returns attempt 2 and tried exactly the
first three strategies. -/
theorem c2_strategy_priority_witness :
    (open_resorts_dropdown (fun i => i == 2)).2 = some 2 ∧
    (open_resorts_dropdown (fun i => i == 2)).1 = strategyOrder.take 3 ∧
    (open_resorts_dropdown (fun i => i == 2)).1.Nodup := by
  have h := c2_strategy_priority (fun i => i == 2) 2 (by decide) (by decide)
    (by decide)
  exact ⟨h.2.1, h.2.2.1, h.2.2.2⟩

theorem mem_dedupAux (r : AvailabilityRecord) :
    ∀ (rows seen : List AvailabilityRecord),
      r ∈ dedupAux seen rows ↔ r ∈ rows ∧ r ∉ seen := by
  intro rows
  induction rows with
  | nil => intro seen; simp [dedupAux]
  | cons a rs ih =>
    intro seen
    by_cases hra : r = a
    · subst hra
      by_cases ha : r ∈ seen
      · simp [dedupAux, ha, ih]
      · simp [dedupAux, ha, ih]
    · by_cases ha : a ∈ seen
      · simp [dedupAux, ha, ih, hra]
      · simp [dedupAux, ha, ih, hra]

theorem nodup_dedupAux :
    ∀ (rows seen : List AvailabilityRecord), (dedupAux seen rows).Nodup := by
  intro rows
  induction rows with
  | nil => intro seen; simp [dedupAux]
  | cons a rs ih =>
    intro seen
    by_cases ha : a ∈ seen
    · simp [dedupAux, ha, ih]
    · simp only [dedupAux, ha, if_neg, ite_false]
      refine List.nodup_cons.mpr ⟨?_, ih _⟩
      intro hmem
      exact ((mem_dedupAux a rs _).mp hmem).2 (List.mem_cons_self a seen)

theorem availabilityRecord_eq_of_fields {a b : AvailabilityRecord}
    (h1 : a.dateRange = b.dateRange) (h2 : a.resort = b.resort)
    (h3 : a.room = b.room) (h4 : a.points = b.points) : a = b := by
  cases a; cases b; simp_all

/-- Claim C4: the output of the dedup pass of `scrape_results` never holds
two records that agree on all four fields; every candidate row is
represented (rows differing in any field are all kept); and the final
result of `scrape_results` is exactly this deduplicated list. -/
theorem c4_dedup (rows : List AvailabilityRecord) :
    List.Pairwise
      (fun a b => ¬(a.dateRange = b.dateRange ∧ a.resort = b.resort ∧
                    a.room = b.room ∧ a.points = b.points)) (dedupRows rows) ∧
    (∀ r, r ∈ dedupRows rows ↔ r ∈ rows) ∧
    (∀ htmlRaises : Bool, ∃ arts,
       scrape_results_finish rows htmlRaises false = Except.ok (dedupRows rows, arts)) := by
  refine ⟨?_, ?_, ?_⟩
  · have hnd : (dedupRows rows).Nodup := nodup_dedupAux rows []
    exact hnd.imp (fun hne hfields =>
      hne (availabilityRecord_eq_of_fields hfields.1 hfields.2.1 hfields.2.2.1 hfields.2.2.2))
  · intro r
    have := mem_dedupAux r rows []
    simpa [dedupRows] using this
  · intro htmlRaises
    unfold scrape_results_finish
    by_cases hz : (dedupRows rows).length == 0
    · cases htmlRaises <;> simp [hz]
    · simp [hz]

/-- Claim C8, counterexample: with zero candidate rows, the debug markup
dump is guarded but the `page.screenshot` call is not guarded; when the
screenshot raises, the exception propagates out of `scrape_results` instead
of an empty list being returned. -/
theorem c8_zero_rows_counterexample :
    scrape_results_finish [] false true = Except.error ScrapeErr.screenshotFailed := rfl

/-- Claim C8 (amended): when all three tiers produce zero rows,
`scrape_results` writes the debug artifacts (the markup dump guarded, its
failure swallowed) and returns the empty list as a valid result, provided
the unguarded screenshot call itself does not raise; a raising screenshot
propagates out of the function. -/
theorem c8_zero_rows_amended (htmlRaises : Bool) :
    ∃ arts, scrape_results_finish [] htmlRaises false = Except.ok ([], arts) ∧
      "no_results_debug.png" ∈ arts := by
  cases htmlRaises
  · exact ⟨["no_results_debug.html", "no_results_debug.png"], rfl, by simp⟩
  · exact ⟨["no_results_debug.png"], rfl, by simp⟩

theorem ensure_state_eq (p c cur s : Bool) :
    ensure_state p c cur s = if p then s else cur := by
  cases p <;> cases c <;> cases cur <;> cases s <;> rfl

theorem ensure_state_exc_ok (env : UnitEnvExc) (st : String → Bool) (inputId : String)
    (should : Bool) (hp : env.present inputId = true)
    (hs : env.labelClickRaises inputId = false ∨ env.labelForceRaises inputId = false ∨
          env.liForceRaises inputId = false) :
    ∃ st2, ensure_state_exc env st inputId should = Except.ok st2 ∧
      st2 inputId = should ∧ ∀ x, x ≠ inputId → st2 x = st x := by
  have hand : (env.labelClickRaises inputId && env.labelForceRaises inputId &&
      env.liForceRaises inputId) = false := by
    rcases hs with h | h | h <;> simp [h]
  have hp2 : ¬(env.present inputId = false) := by simp [hp]
  by_cases hm : st inputId = should
  · exact ⟨st, by simp [ensure_state_exc, hp2, hm], hm, fun x _ => rfl⟩
  · by_cases ht : env.clickToggles inputId = true
    · refine ⟨fun x => if x = inputId then !(st x) else st x,
        by simp [ensure_state_exc, hp2, hm, hand, ht], ?_, ?_⟩
      · simp only [if_pos rfl]
        revert hm
        cases st inputId <;> cases should <;> simp
      · intro x hx
        simp [if_neg hx]
    · refine ⟨fun x => if x = inputId then should else st x,
        by simp [ensure_state_exc, hp2, hm, hand, ht], by simp, ?_⟩
      intro x hx
      simp [if_neg hx]

/-- Claim C5, counterexample to convergence for `any initial selection
state` under arbitrary click outcomes: with only `2 Bedroom` initially
selected and all three click attempts raising, the exception of the final
unguarded `li.click(force=True)` (line 339) propagates while reconciling
`Studio`, so the run raises and no final confirmed set is produced at
all. -/
theorem c5_click_exception_counterexample :
    set_unit_sizes_exc unitEnvClickFail ["Studio", "1 Bedroom"] unitStateOnly2BD
      = Except.error (UnitErr.clickException "option-ST-id") ∧
    ¬ ∃ final, set_unit_sizes_exc unitEnvClickFail ["Studio", "1 Bedroom"] unitStateOnly2BD
        = Except.ok final := by
  refine ⟨rfl, ?_⟩
  rintro ⟨final, h⟩
  exact Except.noConfusion h

/-- Claim C5 (amended): for desired label set `{Studio, 1 Bedroom}`, every
option row rendered, and any initial selection state, reconciliation
drives every option whose label is in the set to selected and every other
option to deselected, so the final confirmed set is exactly
`[Studio, 1 Bedroom]` — provided that for every option at least one of the
three click attempts (label click, forced label click, forced list-item
click) does not raise; when all three raise for an option that needs
flipping, the exception of the final unguarded `li.click(force=True)`
propagates out of `set_unit_sizes`. -/
theorem c5_exact_subset_amended (env : UnitEnvExc) (st : String → Bool)
    (hpres : ∀ p ∈ unitOptions, env.present p.2 = true)
    (hsafe : ∀ p ∈ unitOptions,
       env.labelClickRaises p.2 = false ∨ env.labelForceRaises p.2 = false ∨
       env.liForceRaises p.2 = false) :
    set_unit_sizes_exc env ["Studio", "1 Bedroom"] st
      = Except.ok ["Studio", "1 Bedroom"] := by
  have hm1 : ("Studio", "option-ST-id") ∈ unitOptions := by decide
  have hm2 : ("1 Bedroom", "option-1BD-id") ∈ unitOptions := by decide
  have hm3 : ("2 Bedroom", "option-2BD-id") ∈ unitOptions := by decide
  have hm4 : ("3+ Bedroom", "option-3BDPlus-id") ∈ unitOptions := by decide
  obtain ⟨st1, he1, hv1, ho1⟩ := ensure_state_exc_ok env st "option-ST-id"
    (desiredFor ["Studio", "1 Bedroom"] "Studio") (hpres _ hm1) (hsafe _ hm1)
  obtain ⟨st2, he2, hv2, ho2⟩ := ensure_state_exc_ok env st1 "option-1BD-id"
    (desiredFor ["Studio", "1 Bedroom"] "1 Bedroom") (hpres _ hm2) (hsafe _ hm2)
  obtain ⟨st3, he3, hv3, ho3⟩ := ensure_state_exc_ok env st2 "option-2BD-id"
    (desiredFor ["Studio", "1 Bedroom"] "2 Bedroom") (hpres _ hm3) (hsafe _ hm3)
  obtain ⟨st4, he4, hv4, ho4⟩ := ensure_state_exc_ok env st3 "option-3BDPlus-id"
    (desiredFor ["Studio", "1 Bedroom"] "3+ Bedroom") (hpres _ hm4) (hsafe _ hm4)
  have v1 : st4 "option-ST-id" = true := by
    rw [ho4 _ (by decide), ho3 _ (by decide), ho2 _ (by decide), hv1]; decide
  have v2 : st4 "option-1BD-id" = true := by
    rw [ho4 _ (by decide), ho3 _ (by decide), hv2]; decide
  have v3 : st4 "option-2BD-id" = false := by
    rw [ho4 _ (by decide), hv3]; decide
  have v4 : st4 "option-3BDPlus-id" = false := by
    rw [hv4]; decide
  simp [set_unit_sizes_exc, reconcileOptions, unitOptions, he1, he2, he3, he4,
    v1, v2, v3, v4]

/-- Closed witness for claim C5 (amended): all rows rendered, no click
attempt raises, only `2 Bedroom` initially selected; the run completes
with confirmed set exactly `[Studio, 1 Bedroom]`. -/
theorem c5_exact_subset_amended_witness :
    set_unit_sizes_exc unitEnvSafe ["Studio", "1 Bedroom"] unitStateOnly2BD
      = Except.ok ["Studio", "1 Bedroom"] :=
  c5_exact_subset_amended unitEnvSafe unitStateOnly2BD (by decide) (by decide)

/-- Claim C6: reconciliation is idempotent.  For every panel shape, every
pair of click-effect environments, every desired label subset and every
initial selection state, a second reconciliation run leaves the state of
the first run unchanged (an option whose observed state already matches the
desired one is skipped), so the confirmed selection set is the same after
one run and after two. -/
theorem c6_reconcile_idempotent (shape : UnitPanelShape) (env1 env2 : UnitClickEnv)
    (desired : List String) (s : UnitSelection) :
    set_unit_sizes_reconcile shape env2 desired
        (set_unit_sizes_reconcile shape env1 desired s)
      = set_unit_sizes_reconcile shape env1 desired s ∧
    set_unit_sizes shape env2 desired (set_unit_sizes_reconcile shape env1 desired s)
      = set_unit_sizes shape env1 desired s := by
  have hfield : ∀ p c1 c2 cur d : Bool,
      ensure_state p c2 (ensure_state p c1 cur d) d = ensure_state p c1 cur d := by
    intro p c1 c2 cur d
    rw [ensure_state_eq, ensure_state_eq]
    cases p <;> rfl
  constructor
  · simp [set_unit_sizes_reconcile, hfield]
  · simp [set_unit_sizes, set_unit_sizes_reconcile, hfield]

theorem counterTries_le (env : CounterEnv) (target : Nat) :
    ∀ fuel i cur, counterTries (set_counter_aux env target fuel i cur) ≤ i + fuel := by
  intro fuel
  induction fuel with
  | zero => intro i cur; simp [set_counter_aux, counterTries]
  | succ f ih =>
    intro i cur
    simp only [set_counter_aux]
    split
    · simp [counterTries]
    · split
      · simp [counterTries]
      · calc counterTries (set_counter_aux env target f (i + 1) ((env.readAt i).getD cur))
            ≤ (i + 1) + f := ih (i + 1) _
          _ = i + (f + 1) := by omega

theorem counterReturned_of_no_plus_raise (env : CounterEnv) (target : Nat)
    (hplus : ∀ j, env.plusRaisesAt j = false) :
    ∀ fuel i cur, counterReturned (set_counter_aux env target fuel i cur) = true := by
  intro fuel
  induction fuel with
  | zero => intro i cur; rfl
  | succ f ih =>
    intro i cur
    simp only [set_counter_aux]
    split
    · rfl
    · simp [hplus, ih]

/-- Claim C10: `set_counter` always terminates with at most 30
click-and-recheck iterations, and when no plus click raises it returns
normally even if the loop budget is exhausted with the observed value still
different from the target. -/
theorem c10_counter_terminates (env : CounterEnv) (target : Nat) :
    counterTries (set_counter env target) ≤ 30 ∧
    ((∀ j, env.plusRaisesAt j = false) →
       counterReturned (set_counter env target) = true) := by
  constructor
  · simpa using counterTries_le env target 30 0 env.initial
  · intro hplus
    exact counterReturned_of_no_plus_raise env target hplus 30 0 env.initial

/-- Closed witness for claim C10: a counter stuck at 0 with target 5
exhausts all 30 iterations, still differs from the target, and returns
normally. -/
theorem c10_counter_terminates_witness :
    counterTries (set_counter ⟨0, fun _ => some 0, fun _ => false⟩ 5) ≤ 30 ∧
    counterReturned (set_counter ⟨0, fun _ => some 0, fun _ => false⟩ 5) = true ∧
    set_counter ⟨0, fun _ => some 0, fun _ => false⟩ 5
      = CounterOutcome.finished 0 30 ∧
    (0 : Nat) ≠ 5 := by
  have h := c10_counter_terminates ⟨0, fun _ => some 0, fun _ => false⟩ 5
  exact ⟨h.1, h.2 (fun j => rfl), by decide, by decide⟩

theorem processOptions_ok (env : LocEnv) :
    ∀ ids : List Nat,
      (∀ fid ∈ ids, env.initiallySelected fid = false →
         (env.labelClickRaises fid = false ∨ env.labelForceRaises fid = false ∨
          env.liForceRaises fid = false)) →
      processOptions env ids = Except.ok () := by
  intro ids
  induction ids with
  | nil => intro _; rfl
  | cons fid rest ih =>
    intro h
    simp only [processOptions]
    by_cases hsel : env.initiallySelected fid = true
    · simp only [hsel, if_true]
      exact ih (fun f hf => h f (List.mem_cons_of_mem _ hf))
    · have hsel2 : env.initiallySelected fid = false := by
        revert hsel; cases env.initiallySelected fid <;> simp
      have hclick := h fid (List.mem_cons_self _ _) hsel2
      have hand : (env.labelClickRaises fid && env.labelForceRaises fid &&
          env.liForceRaises fid) = false := by
        rcases hclick with h1 | h1 | h1 <;> simp [h1]
      simp only [hsel2, Bool.false_eq_true, if_false, hand]
      exact ih (fun f hf => h f (List.mem_cons_of_mem _ hf))

theorem processOptions_error_shape (env : LocEnv) :
    ∀ (ids : List Nat) (e : LocErr),
      processOptions env ids = Except.error e → ∃ fid, e = LocErr.clickException fid := by
  intro ids
  induction ids with
  | nil =>
    intro e h
    exact absurd h (by simp [processOptions])
  | cons fid rest ih =>
    intro e h
    simp only [processOptions] at h
    by_cases h1 : env.initiallySelected fid = true
    · rw [if_pos h1] at h; exact ih e h
    · rw [if_neg h1] at h
      by_cases h2 : (env.labelClickRaises fid && env.labelForceRaises fid &&
          env.liForceRaises fid) = true
      · rw [if_pos h2] at h
        injection h with h3
        exact ⟨fid, h3.symm⟩
      · rw [if_neg h2] at h; exact ih e h

/-- Claim C7 (amended): location-group discovery fails with
`location_panel_no_florida` exactly when the Florida header never appears
within the 60-step scroll ceiling, and with `location_panel_after` exactly
when the header appears but zero options are collected; both of these
raises follow a debug snapshot.  When at least one option is found, the
operation completes without raising provided that for every
initially-unselected option at least one of the three click attempts does
not raise; the final forced list-item click is unguarded, so when all three
attempts raise for some option, that exception propagates (with no debug
snapshot). -/
theorem c7_fatal_cases_amended (env : LocEnv) :
    (select_all_florida_locations env = Except.error LocErr.noFlorida ↔
       foundFlorida env = false) ∧
    (select_all_florida_locations env = Except.error LocErr.noOptions ↔
       (foundFlorida env = true ∧ collectIds env = [])) ∧
    locErrDebugStem LocErr.noFlorida = some "location_panel_no_florida" ∧
    locErrDebugStem LocErr.noOptions = some "location_panel_after" ∧
    (∀ fid, locErrDebugStem (LocErr.clickException fid) = none) ∧
    (foundFlorida env = true → collectIds env ≠ [] →
       (∀ fid ∈ collectIds env, env.initiallySelected fid = false →
          (env.labelClickRaises fid = false ∨ env.labelForceRaises fid = false ∨
           env.liForceRaises fid = false)) →
       select_all_florida_locations env = Except.ok (collectIds env).length) := by
  by_cases hf : foundFlorida env = true
  · by_cases hids : collectIds env = []
    · refine ⟨?_, ?_, rfl, rfl, fun _ => rfl, ?_⟩
      · simp [select_all_florida_locations, hf, hids]
      · simp [select_all_florida_locations, hf, hids]
      · intro _ habs _; exact absurd hids habs
    · have hne : (collectIds env).isEmpty = false := by
        revert hids; cases collectIds env <;> simp
      refine ⟨?_, ?_, rfl, rfl, fun _ => rfl, ?_⟩
      · cases hp : processOptions env (collectIds env) with
        | ok u => simp [select_all_florida_locations, hf, hne, hp]
        | error e =>
          obtain ⟨fid, rfl⟩ := processOptions_error_shape env _ e hp
          simp [select_all_florida_locations, hf, hne, hp]
      · cases hp : processOptions env (collectIds env) with
        | ok u => simp [select_all_florida_locations, hf, hne, hp, hids]
        | error e =>
          obtain ⟨fid, rfl⟩ := processOptions_error_shape env _ e hp
          simp [select_all_florida_locations, hf, hne, hp, hids]
      · intro _ _ hsafe
        have hp := processOptions_ok env (collectIds env) hsafe
        simp [select_all_florida_locations, hf, hne, hp]
  · have hf2 : foundFlorida env = false := by
      revert hf; cases foundFlorida env <;> simp
    refine ⟨?_, ?_, rfl, rfl, fun _ => rfl, ?_⟩
    · simp [select_all_florida_locations, hf2]
    · simp [select_all_florida_locations, hf2]
    · intro habs; exact absurd habs (by simp [hf2])

/-- Environment for the closed C7 witness: the header is visible, one
option with id 5 is collected, it is initially unselected, and the plain
label click does not raise. -/
def locEnvWitness : LocEnv :=
  ⟨fun _ => true, fun _ => [5], fun _ => true, fun _ => false,
   fun _ => false, fun _ => false, fun _ => false, fun _ => true⟩

/-- Closed witness for claim C7 (amended): one Florida option is found and
its click chain succeeds, so the operation completes without raising. -/
theorem c7_fatal_cases_amended_witness :
    select_all_florida_locations locEnvWitness = Except.ok 1 := by
  have h := (c7_fatal_cases_amended locEnvWitness).2.2.2.2.2
    (by decide) (by decide) (by decide)
  have hlen : (collectIds locEnvWitness).length = 1 := by decide
  rw [hlen] at h
  exact h

/-- Environment for the C7 counterexample: the header is visible, one
option with id 5 is collected and initially unselected, and all three click
attempts raise. -/
def locEnvClickFail : LocEnv :=
  ⟨fun _ => true, fun _ => [5], fun _ => true, fun _ => false,
   fun _ => true, fun _ => true, fun _ => true, fun _ => false⟩

/-- Claim C7, counterexample to `completes without raising regardless of
per-option click outcomes`: an option is found (the collected id list is
nonempty), yet the run raises, because the final forced click on the list
item sits in the innermost `except` block with no guard of its own; no
debug snapshot accompanies this raise. -/
theorem c7_click_exception_counterexample :
    collectIds locEnvClickFail = [5] ∧
    select_all_florida_locations locEnvClickFail
      = Except.error (LocErr.clickException 5) ∧
    locErrDebugStem (LocErr.clickException 5) = none :=
  ⟨by decide, rfl, rfl⟩

theorem containsPointsCI_of_suffix :
    ∀ s t : List Char, t <:+ s → startsWithCI pointsWord t = true →
      containsPointsCI s = true := by
  intro s
  induction s with
  | nil =>
    intro t ht hs
    rw [List.suffix_nil.mp ht] at hs
    exact absurd hs (by decide)
  | cons c cs ih =>
    intro t ht hs
    obtain ⟨pre, hpre⟩ := ht
    cases pre with
    | nil =>
      simp only [List.nil_append] at hpre
      subst hpre
      simp [containsPointsCI, hs]
    | cons p ps =>
      injection hpre with hh ht2
      simp [containsPointsCI, ih t ⟨ps, ht2⟩ hs]

theorem findPrimary_eq_none_of_no_points :
    ∀ s : List Char, containsPointsCI s = false → findPrimary s = none := by
  intro s
  induction s with
  | nil => intro _; rfl
  | cons c cs ih =>
    intro h
    have hsplit : startsWithCI pointsWord (c :: cs) = false ∧ containsPointsCI cs = false := by
      revert h
      simp only [containsPointsCI, Bool.or_eq_false_iff]
      exact id
    have hp : primaryAt (c :: cs) = none := by
      rw [primaryAt]
      by_cases hd : isDigitOrComma c = true
      · have hsfx : (cs.dropWhile isDigitOrComma).dropWhile isPyWhitespace <:+ (c :: cs) :=
          ((List.dropWhile_suffix _).trans (List.dropWhile_suffix _)).trans
            (List.suffix_cons c cs)
        have hsw : startsWithCI pointsWord
            ((cs.dropWhile isDigitOrComma).dropWhile isPyWhitespace) = false := by
          cases hw : startsWithCI pointsWord
              ((cs.dropWhile isDigitOrComma).dropWhile isPyWhitespace)
          · rfl
          · have hcont := containsPointsCI_of_suffix (c :: cs) _ hsfx hw
            rw [hcont] at h
            exact absurd h (by decide)
        simp [hd, hsw]
      · simp [hd]
    rw [findPrimary, hp]
    exact ih hsplit.2

/-- Claim C3: points parsing returns the first digits-and-commas run whose
next word is `points` (case-insensitive) with commas removed; when that
primary pattern is absent it falls back to the first comma-grouped or
4-or-more-digit number; otherwise it returns the empty string.  In
particular the two specification examples hold. -/
theorem c3_points_parsing :
    clean_points_from_text "Oceanview Suite — 1,234 points/night" = "1234" ∧
    clean_points_from_text "Studio from $199" = "" ∧
    (∀ txt run, findPrimary txt.data = some run →
       clean_points_from_text txt = stripCommas run) ∧
    (∀ txt m, findPrimary txt.data = none → findSecondary txt.data = some m →
       clean_points_from_text txt = stripCommas m) ∧
    (∀ txt, findPrimary txt.data = none → findSecondary txt.data = none →
       clean_points_from_text txt = "") := by
  refine ⟨by decide, by decide, ?_, ?_, ?_⟩
  · intro txt run h1
    by_cases he : txt.isEmpty
    · rw [(String.isEmpty_iff txt).mp he] at h1
      exact Option.noConfusion h1
    · simp [clean_points_from_text, he, h1]
  · intro txt m h1 h2
    by_cases he : txt.isEmpty
    · rw [(String.isEmpty_iff txt).mp he] at h2
      exact Option.noConfusion h2
    · simp [clean_points_from_text, he, h1, h2]
  · intro txt h1 h2
    by_cases he : txt.isEmpty
    · simp [clean_points_from_text, he]
    · simp [clean_points_from_text, he, h1, h2]

/-- Closed witness for claim C3: the primary-pattern conjunct applied to
`12,34points` and the empty-fallback conjunct applied to text with no
number at all. -/
theorem c3_points_parsing_witness :
    clean_points_from_text "12,34points" = stripCommas ['1', '2', ',', '3', '4'] ∧
    clean_points_from_text "only text here" = "" :=
  ⟨c3_points_parsing.2.2.1 "12,34points" ['1', '2', ',', '3', '4'] (by decide),
   c3_points_parsing.2.2.2.2 "only text here" (by decide) (by decide)⟩

/-- Claim C9: on input that never mentions `points` but contains a
comma-grouped or 4-or-more-digit number, the parser returns that number
with commas removed rather than the empty string; in particular the dollar
price in `Studio from $1,999` is emitted as the points value `1999`. -/
theorem c9_currency_parsed_as_points :
    containsPointsCI ("Studio from $1,999".data) = false ∧
    clean_points_from_text "Studio from $1,999" = "1999" ∧
    (∀ txt m, containsPointsCI txt.data = false → findSecondary txt.data = some m →
       clean_points_from_text txt = stripCommas m) := by
  refine ⟨by decide, by decide, ?_⟩
  intro txt m hnp hsec
  have hp := findPrimary_eq_none_of_no_points txt.data hnp
  by_cases he : txt.isEmpty
  · rw [(String.isEmpty_iff txt).mp he] at hsec
    exact Option.noConfusion hsec
  · simp [clean_points_from_text, he, hp, hsec]

/-- Closed witness for claim C9: a different currency amount with no
`points` token is parsed into a points value through the fallback. -/
theorem c9_currency_parsed_as_points_witness :
    clean_points_from_text "Deluxe from $2,500 per night" = stripCommas ['2', ',', '5', '0', '0'] :=
  c9_currency_parsed_as_points.2.2 "Deluxe from $2,500 per night" ['2', ',', '5', '0', '0']
    (by decide) (by decide)
